import Mathlib

/-!
Shallow embedding of `markov/metrics/s3_metrics.py` (DeepRacer simulation
metrics): the `TrainingMetrics` and `EvalMetrics` aggregation state and the
pure state transitions of their methods.

Modelling conventions:
* Python floats are modelled as rationals (`ℚ`).
* Every `time.time()` read is passed in as an explicit `now : ℚ` argument.
* The external checkpoint-state file reads (`self._checkpoint_state_.read().name`)
  are passed in as explicit `String` arguments.
* S3 uploads, the ROS video-metrics service, log lines and local trace files
  are boundary IO with no effect on aggregation state and are omitted.
* A Python exception is modelled by returning the partially mutated state
  together with an error value: a raised exception leaves every field
  assignment already executed in place, so the state component of the result
  is the object state at the moment the exception propagates.
-/

/-- Python `int(x)` applied to a float: truncation toward zero. -/
def pyInt (q : ℚ) : ℤ := q.num.tdiv (q.den : ℤ)

/-- Python `round(x)` with no digit argument: round half to even. -/
def pyRound (q : ℚ) : ℤ :=
  let f := ⌊q⌋
  let r := q - (f : ℚ)
  if r < 1 / 2 then f
  else if 1 / 2 < r then f + 1
  else if 2 ∣ f then f else f + 1

/-- Python `statistics.mean` on a nonempty list: sum divided by length. -/
def pyMean (l : List ℚ) : ℚ := l.sum / (l.length : ℚ)

/-- The mean computed at an EVAL to TRAIN transition:
`statistics.mean(self._current_eval_pct_list_ if self._current_eval_pct_list_ else [-1])`.
An empty sample window is replaced by the singleton `[-1]`, so the mean of an
empty window is the sentinel `-1`. -/
def windowMean (l : List ℚ) : ℚ := pyMean (if l.isEmpty then [-1] else l)

/-- The Python exceptions that the embedded methods can raise. -/
inductive MetricsErr where
  /-- `KeyError`: a dictionary access `metrics[key]` on an absent key. -/
  | keyError
  /-- The error raised by `StepMetrics.validate_dict` on a record with a
  missing required field (the `MalformedRecord` condition of the spec). -/
  | malformedRecord
  /-- `ZeroDivisionError`: float division by zero. -/
  | zeroDivisionError
  /-- `TypeError`: arithmetic on `None` (subtracting an unset previous time). -/
  | typeError
  deriving DecidableEq

/-- Modelled from the spec: a step record is a dictionary whose required
fields are position `(x, y)`, steering value, progress ratio, episode status,
reward delta, episode index and done flag (`markov.metrics.constants.StepMetrics`
is outside the given sources; the auxiliary fixed-order logging fields play no
role in aggregation and are omitted).  An absent key is `none`. -/
structure StepRec where
  x : Option ℚ
  y : Option ℚ
  steer : Option ℚ
  prog : Option ℚ
  episode_status : Option String
  reward : Option ℚ
  episode : Option ℤ
  done : Option Bool
  deriving DecidableEq

/-- Modelled from the spec: `StepMetrics.validate_dict` succeeds exactly when
every required field is present in the record. -/
def StepRec.validate_ok (m : StepRec) : Bool :=
  m.x.isSome && m.y.isSome && m.steer.isSome && m.prog.isSome &&
  m.episode_status.isSome && m.reward.isSome && m.episode.isSome && m.done.isSome

/-- The checkpoint-stats records tracked by the model picker
(`self._best_chkpnt_stats` and the `last_chkpnt_stats` it publishes):
`{'name': ..., 'avg_comp_pct': ..., 'time_stamp': ...}`.  The name is `None`
at construction time, hence an `Option`. -/
structure ChkpntStats where
  name : Option String
  avg_comp_pct : ℚ
  time_stamp : ℚ
  deriving DecidableEq

/-- The run-phase notifications delivered to `TrainingMetrics.update`; the
method only distinguishes `RunPhase.TRAIN` from everything else
(`self._is_eval_ = data != RunPhase.TRAIN`). -/
inductive RunPhase where
  | TRAIN
  | EVAL
  deriving DecidableEq, BEq

/-- One entry of `TrainingMetrics._metrics_`, the dictionary built by
`TrainingMetrics.append_episode_metrics`. -/
structure TrainingMetric where
  reward_score : ℤ
  metric_time : ℤ
  start_time : ℤ
  elapsed_time_in_milliseconds : ℤ
  episode : ℤ
  trial : ℤ
  phase : String
  completion_percentage : ℤ
  episode_status : String
  deriving DecidableEq

/-- The mutable state of a `TrainingMetrics` instance: the attributes set in
`TrainingMetrics.__init__` that participate in aggregation.  The members
`_eval_stats_dict_` (keys `chkpnt_name`, `avg_comp_pct`) are inlined as the
two `eval_stats_` fields. -/
structure TrainingMetrics where
  start_time : ℚ
  episode : ℕ
  episode_reward : ℚ
  progress : ℚ
  episode_status : String
  metrics : List TrainingMetric
  is_eval : Bool
  eval_trials : ℕ
  use_model_picker : Bool
  eval_stats_chkpnt_name : Option String
  eval_stats_avg_comp_pct : ℚ
  best_chkpnt_stats : ChkpntStats
  current_eval_pct_list : List ℚ
  deriving DecidableEq

/-- The state built by `TrainingMetrics.__init__` (with `time.time()` passed
as `now`). -/
def TrainingMetrics.init (use_model_picker : Bool) (now : ℚ) : TrainingMetrics :=
  { start_time := now
    episode := 0
    episode_reward := 0
    progress := 0
    episode_status := ""
    metrics := []
    is_eval := true
    eval_trials := 0
    use_model_picker := use_model_picker
    eval_stats_chkpnt_name := none
    eval_stats_avg_comp_pct := 0
    best_chkpnt_stats := { name := none, avg_comp_pct := 0, time_stamp := now }
    current_eval_pct_list := [] }

/-- `TrainingMetrics.reset`: set the episode start time to now and zero the
running reward and the latest progress. -/
def TrainingMetrics.reset (s : TrainingMetrics) (now : ℚ) : TrainingMetrics :=
  { s with start_time := now, episode_reward := 0, progress := 0 }

/-- `TrainingMetrics.append_episode_metrics` (with `time.time()` passed as
`now` and the external `EpisodeStatus.get_episode_status_label` passed as
`label`): advance the episode and trial counters by `1 if not self._is_eval_
else 0` each, then append the episode dictionary to `self._metrics_`. -/
def TrainingMetrics.append_episode_metrics (s : TrainingMetrics)
    (label : String → String) (now : ℚ) : TrainingMetrics :=
  let episode := if !s.is_eval then s.episode + 1 else s.episode
  let eval_trials := if !s.is_eval then s.eval_trials + 1 else s.eval_trials
  let tm : TrainingMetric :=
    { reward_score := pyRound s.episode_reward
      metric_time := pyRound (now * 1000)
      start_time := pyRound (s.start_time * 1000)
      elapsed_time_in_milliseconds := pyRound ((now - s.start_time) * 1000)
      episode := (episode : ℤ)
      trial := (eval_trials : ℤ)
      phase := if s.is_eval then "evaluation" else "training"
      completion_percentage := pyInt s.progress
      episode_status := label s.episode_status }
  { s with episode := episode, eval_trials := eval_trials, metrics := s.metrics ++ [tm] }

/-- `TrainingMetrics.upload_episode_metrics`: the S3 write is boundary IO; the
state effect is that in evaluation phase the latest progress is appended to
`self._current_eval_pct_list_`. -/
def TrainingMetrics.upload_episode_metrics (s : TrainingMetrics) : TrainingMetrics :=
  if s.is_eval then { s with current_eval_pct_list := s.current_eval_pct_list ++ [s.progress] }
  else s

/-- `TrainingMetrics.upload_step_metrics`: assign progress, status and add the
reward, then in non-evaluation phase write the episode index into the record,
add the reward a second time, and validate the record.  The result carries the
state and record as mutated at the moment an exception (if any) propagates. -/
def TrainingMetrics.upload_step_metrics (s : TrainingMetrics) (m : StepRec) :
    TrainingMetrics × StepRec × Option MetricsErr :=
  match m.prog with
  | none => (s, m, some .keyError)
  | some p =>
    match m.episode_status with
    | none => ({ s with progress := p }, m, some .keyError)
    | some st =>
      match m.reward with
      | none => ({ s with progress := p, episode_status := st }, m, some .keyError)
      | some r =>
        let s1 : TrainingMetrics :=
          { s with progress := p, episode_status := st,
                   episode_reward := s.episode_reward + r }
        if s1.is_eval then (s1, m, none)
        else
          let m1 : StepRec := { m with episode := some (s1.episode : ℤ) }
          let s2 : TrainingMetrics := { s1 with episode_reward := s1.episode_reward + r }
          if m1.validate_ok then (s2, m1, none)
          else (s2, m1, some .malformedRecord)

/-- `TrainingMetrics.update`, the model-picker transition (with the two
checkpoint-state file reads passed as `chkptRead1` and `chkptRead2` and
`time.time()` as `now`).  Publishing `{best, last}` to S3 is boundary IO. -/
def TrainingMetrics.update (s : TrainingMetrics) (data : RunPhase)
    (chkptRead1 chkptRead2 : String) (now : ℚ) : TrainingMetrics :=
  let s1 : TrainingMetrics := { s with is_eval := data != RunPhase.TRAIN }
  if !s1.is_eval && s1.use_model_picker then
    let name := match s1.eval_stats_chkpnt_name with
      | none => chkptRead1
      | some n => n
    let s2 : TrainingMetrics := { s1 with eval_stats_chkpnt_name := some name, eval_trials := 0 }
    let mean_pct := windowMean s2.current_eval_pct_list
    let s3 : TrainingMetrics := { s2 with current_eval_pct_list := [] }
    let s4 : TrainingMetrics :=
      if s3.eval_stats_avg_comp_pct ≤ mean_pct then
        { s3 with eval_stats_avg_comp_pct := mean_pct,
                  best_chkpnt_stats :=
                    { name := some name, avg_comp_pct := mean_pct, time_stamp := now } }
      else s3
    { s4 with eval_stats_chkpnt_name := some chkptRead2 }
  else s1

/-- Modelled from the spec: the recognized failure statuses whose occurrences
are tallied by the reset counters (the `EpisodeStatus` enum lives in
`markov.metrics.constants`, outside the given sources). -/
def EpisodeStatus.CRASHED : String := "crashed"

/-- Modelled from the spec: see `EpisodeStatus.CRASHED`. -/
def EpisodeStatus.OFF_TRACK : String := "off_track"

/-- Modelled from the spec: see `EpisodeStatus.CRASHED`. -/
def EpisodeStatus.IMMOBILIZED : String := "immobilized"

/-- Modelled from the spec: see `EpisodeStatus.CRASHED`. -/
def EpisodeStatus.REVERSED : String := "reversed"

/-- One entry of `EvalMetrics._metrics_`, the dictionary built by
`EvalMetrics.append_episode_metrics`. -/
structure EvalMetric where
  completion_percentage : ℤ
  metric_time : ℤ
  start_time : ℤ
  elapsed_time_in_milliseconds : ℤ
  trial : ℤ
  episode_status : String
  crash_count : ℕ
  immobilized_count : ℕ
  off_track_count : ℕ
  reversed_count : ℕ
  reset_count : ℕ
  deriving DecidableEq

/-- The live video-metrics mapping `self._video_metrics` served by the ROS
service.  `best_lap_time` starts at `float('inf')`, modelled as `none`. -/
structure VideoMetricsRec where
  lap_counter : ℕ
  completion_percentage : ℚ
  reset_counter : ℕ
  throttle : ℚ
  steering : ℚ
  best_lap_time : Option ℤ
  total_evaluation_time : ℤ
  done : Bool
  deriving DecidableEq

/-- Modelled from the spec: `Mp4VideoMetrics.get_empty_dict()` (defined in
`markov.metrics.constants`, outside the given sources) yields the empty
snapshot all the fields of which are overwritten by the first step update. -/
def VideoMetricsRec.empty : VideoMetricsRec :=
  { lap_counter := 0, completion_percentage := 0, reset_counter := 0,
    throttle := 0, steering := 0, best_lap_time := none,
    total_evaluation_time := 0, done := false }

/-- The mutable state of an `EvalMetrics` instance: the attributes set in
`EvalMetrics.__init__` that participate in aggregation.  The
`self.reset_count_dict` mapping is inlined as the four `_count` fields, and
`self._agent_xy` (a list, empty before the first step) together with
`self._prev_step_time` (initially `None`) are `Option`s. -/
structure EvalMetrics where
  is_continuous : Bool
  start_time : ℚ
  number_of_trials : ℕ
  progress : ℚ
  episode_status : String
  metrics : List EvalMetric
  agent_xy : Option (ℚ × ℚ)
  prev_step_time : Option ℚ
  crashed_count : ℕ
  off_track_count : ℕ
  immobilized_count : ℕ
  reversed_count : ℕ
  best_lap_time : Option ℤ
  total_evaluation_time : ℤ
  video_metrics : VideoMetricsRec
  reset_count_sum : ℕ
  deriving DecidableEq

/-- The state built by `EvalMetrics.__init__` (with `time.time()` passed as
`now`). -/
def EvalMetrics.init (is_continuous : Bool) (now : ℚ) : EvalMetrics :=
  { is_continuous := is_continuous
    start_time := now
    number_of_trials := 0
    progress := 0
    episode_status := ""
    metrics := []
    agent_xy := none
    prev_step_time := none
    crashed_count := 0
    off_track_count := 0
    immobilized_count := 0
    reversed_count := 0
    best_lap_time := none
    total_evaluation_time := 0
    video_metrics := VideoMetricsRec.empty
    reset_count_sum := 0 }

/-- `EvalMetrics.reset`: fold the per-window counters into
`self._reset_count_sum`, zero the per-window counters and set the start time.
The second component of the result is the Python return value: the method
body has no return statement, so every call returns `None`. -/
def EvalMetrics.reset (s : EvalMetrics) (now : ℚ) : EvalMetrics × Option ℤ :=
  ({ s with start_time := now
            reset_count_sum := s.reset_count_sum +
              (s.crashed_count + s.immobilized_count + s.off_track_count + s.reversed_count)
            crashed_count := 0
            off_track_count := 0
            immobilized_count := 0
            reversed_count := 0 }, none)

/-- The increment `if self._episode_status in self.reset_count_dict:
self.reset_count_dict[self._episode_status] += 1` performed by
`EvalMetrics.upload_step_metrics`. -/
def EvalMetrics.recordResetStatus (s : EvalMetrics) (st : String) : EvalMetrics :=
  if st = EpisodeStatus.CRASHED then { s with crashed_count := s.crashed_count + 1 }
  else if st = EpisodeStatus.OFF_TRACK then { s with off_track_count := s.off_track_count + 1 }
  else if st = EpisodeStatus.IMMOBILIZED then
    { s with immobilized_count := s.immobilized_count + 1 }
  else if st = EpisodeStatus.REVERSED then { s with reversed_count := s.reversed_count + 1 }
  else s

/-- `EvalMetrics.append_episode_metrics` (with `time.time()` passed as `now`
and the external `EpisodeStatus.get_episode_status_label` passed as `label`):
advance the trial counter, build the episode dictionary, update the best lap
time (`min` against `float('inf')` modelled on `Option`), accumulate the
total evaluation time and append the dictionary to `self._metrics_`. -/
def EvalMetrics.append_episode_metrics (s : EvalMetrics)
    (label : String → String) (now : ℚ) : EvalMetrics :=
  let n := s.number_of_trials + 1
  let elapsed := pyRound ((now - s.start_time) * 1000)
  let em : EvalMetric :=
    { completion_percentage := pyInt s.progress
      metric_time := pyRound (now * 1000)
      start_time := pyRound (s.start_time * 1000)
      elapsed_time_in_milliseconds := elapsed
      trial := (n : ℤ)
      episode_status := label s.episode_status
      crash_count := s.crashed_count
      immobilized_count := s.immobilized_count
      off_track_count := s.off_track_count
      reversed_count := s.reversed_count
      reset_count := s.crashed_count + s.immobilized_count +
        s.off_track_count + s.reversed_count }
  { s with number_of_trials := n
           best_lap_time := some (match s.best_lap_time with
             | none => elapsed
             | some b => min elapsed b)
           total_evaluation_time := s.total_evaluation_time + elapsed
           metrics := s.metrics ++ [em] }

/-- The tail of `EvalMetrics._update_mp4_video_metrics`: the in-place writes
to `self._video_metrics`, in source order; reading the steering or done field
of the record raises `KeyError` when it is absent, leaving the fields already
assigned in place. -/
def EvalMetrics.fillVideoMetrics (s : EvalMetrics) (m : StepRec) (speed : ℚ) (now : ℚ) :
    EvalMetrics × Option MetricsErr :=
  let v0 : VideoMetricsRec :=
    { s.video_metrics with
      lap_counter := s.number_of_trials
      completion_percentage := s.progress
      reset_counter := s.crashed_count + s.immobilized_count + s.off_track_count +
        s.reversed_count + (if s.is_continuous then s.reset_count_sum else 0)
      throttle := speed }
  match m.steer with
  | none => ({ s with video_metrics := v0 }, some .keyError)
  | some st =>
    let v1 : VideoMetricsRec :=
      { v0 with steering := st
                best_lap_time := s.best_lap_time
                total_evaluation_time := s.total_evaluation_time +
                  pyRound ((now - s.start_time) * 1000) }
    match m.done with
    | none => ({ s with video_metrics := v1 }, some .keyError)
    | some d => ({ s with video_metrics := { v1 with done := d } }, none)

/-- `EvalMetrics._update_mp4_video_metrics` (with `time.time()` passed as
`now` and `math.sqrt` as `sqrt`): `actual_speed` is `0` unless a previous
position exists, in which case it is the Euclidean distance to the previous
position divided by the elapsed time — a zero elapsed time raises
`ZeroDivisionError` before any state is written. -/
def EvalMetrics.update_mp4_video_metrics (s : EvalMetrics) (sqrt : ℚ → ℚ)
    (now : ℚ) (m : StepRec) : EvalMetrics × Option MetricsErr :=
  match m.x, m.y with
  | some ax, some ay =>
    match s.agent_xy with
    | none =>
      let s1 : EvalMetrics := { s with agent_xy := some (ax, ay), prev_step_time := some now }
      s1.fillVideoMetrics m 0 now
    | some (px, py) =>
      match s.prev_step_time with
      | none => (s, some .typeError)
      | some pt =>
        let dt := now - pt
        if dt = 0 then (s, some .zeroDivisionError)
        else
          let speed := sqrt ((px - ax) ^ 2 + (py - ay) ^ 2) / dt
          let s1 : EvalMetrics := { s with agent_xy := some (ax, ay), prev_step_time := some now }
          s1.fillVideoMetrics m speed now
  | _, _ => (s, some .keyError)

/-- `EvalMetrics.upload_step_metrics`: write the trial counter into the
record, assign progress and status, bump the matching reset counter, validate
the record, and (after boundary logging) update the video metrics.  The
result carries the state and record as mutated at the moment an exception
(if any) propagates. -/
def EvalMetrics.upload_step_metrics (s : EvalMetrics) (sqrt : ℚ → ℚ)
    (now : ℚ) (m : StepRec) : EvalMetrics × StepRec × Option MetricsErr :=
  let m1 : StepRec := { m with episode := some (s.number_of_trials : ℤ) }
  match m1.prog with
  | none => (s, m1, some .keyError)
  | some p =>
    match m1.episode_status with
    | none => ({ s with progress := p }, m1, some .keyError)
    | some st =>
      let s1 := (({ s with progress := p, episode_status := st } :
        EvalMetrics)).recordResetStatus st
      if m1.validate_ok then
        let r := s1.update_mp4_video_metrics sqrt now m1
        (r.1, m1, r.2)
      else (s1, m1, some .malformedRecord)

/-- The events that mutate a `TrainingMetrics` instance over the lifetime of
the process, each carrying its external inputs: the `time.time()` reads, the
checkpoint-state file reads, the incoming run phase or step record. -/
inductive TMEvent where
  | reset (now : ℚ)
  | appendEpisode (now : ℚ)
  | uploadEpisode
  | stepIngest (m : StepRec)
  | phaseUpdate (data : RunPhase) (chkptRead1 chkptRead2 : String) (now : ℚ)

/-- Apply one event to a `TrainingMetrics` state; the status-label map used
by `append_episode_metrics` is the parameter `label`.  A step ingest keeps
the state component even when the call raises, matching an in-place mutating
method whose exception propagates past the already executed assignments. -/
def TrainingMetrics.stepEvent (label : String → String) (s : TrainingMetrics) :
    TMEvent → TrainingMetrics
  | .reset now => s.reset now
  | .appendEpisode now => s.append_episode_metrics label now
  | .uploadEpisode => s.upload_episode_metrics
  | .stepIngest m => (s.upload_step_metrics m).1
  | .phaseUpdate data c1 c2 now => s.update data c1 c2 now

/-- Run a list of events from a state, oldest first. -/
def TrainingMetrics.run (label : String → String) (es : List TMEvent)
    (s : TrainingMetrics) : TrainingMetrics :=
  es.foldl (fun t e => t.stepEvent label e) s

/-- A `TrainingMetrics` state is reachable when some event sequence applied to
a freshly constructed instance produces it. -/
def TrainingMetrics.Reachable (s : TrainingMetrics) : Prop :=
  ∃ label use_model_picker t0 es,
    TrainingMetrics.run label es (TrainingMetrics.init use_model_picker t0) = s

/-- The model-picker bookkeeping invariant: the tracked window-stats mean
`_eval_stats_dict_['avg_comp_pct']` always equals the tracked best mean, and
the tracked best mean is nonnegative (it starts at 0 and is only ever
replaced by a value at least as large). -/
def TrainingMetrics.Inv (s : TrainingMetrics) : Prop :=
  s.eval_stats_avg_comp_pct = s.best_chkpnt_stats.avg_comp_pct ∧
  0 ≤ s.best_chkpnt_stats.avg_comp_pct

/-- A step record carrying every required field. -/
def fullStepRec : StepRec :=
  { x := some 0, y := some 0, steer := some 0, prog := some 50,
    episode_status := some "prepare", reward := some 1, episode := some 0,
    done := some false }

/-- `fullStepRec` with the `x` field absent. -/
def missingXStep : StepRec := { fullStepRec with x := none }

/-- `fullStepRec` with the `episode` field absent. -/
def missingEpisodeStep : StepRec := { fullStepRec with episode := none }

/-- `fullStepRec` with progress 2.7. -/
def progress27Step : StepRec := { fullStepRec with prog := some (27 / 10) }

/-- A training-side aggregator in training phase (a fresh instance after the
phase notification `RunPhase.TRAIN` has cleared `_is_eval_`). -/
def trainingPhaseState : TrainingMetrics :=
  { TrainingMetrics.init true 0 with is_eval := false }

/-- A training-side aggregator in evaluation phase (its initial phase). -/
def evalPhaseState : TrainingMetrics := TrainingMetrics.init true 0

/-- An evaluation-side aggregator with two crashes and one off-track tallied
in the current window. -/
def evalStateCex : EvalMetrics :=
  { EvalMetrics.init false 0 with crashed_count := 2, off_track_count := 1 }

/-- An evaluation-side aggregator that has already seen one step, at position
`(0, 0)` and wall-clock time 5. -/
def evalStateWithPrev : EvalMetrics :=
  { EvalMetrics.init false 0 with agent_xy := some (0, 0), prev_step_time := some 5 }

/-- C10: `TrainingMetrics.reset` sets the episode start time to the current
time and zeroes the running episode reward and the latest progress, and
changes nothing else — the episode counter, the evaluation trial counter, the
pending metrics list, the completion-percentage sample list, the best and
window checkpoint stats, the phase flag, the picker flag and the latest
status are all unchanged. -/
theorem training_reset_frame (s : TrainingMetrics) (now : ℚ) :
    (s.reset now).start_time = now ∧
    (s.reset now).episode_reward = 0 ∧
    (s.reset now).progress = 0 ∧
    (s.reset now).episode = s.episode ∧
    (s.reset now).eval_trials = s.eval_trials ∧
    (s.reset now).metrics = s.metrics ∧
    (s.reset now).current_eval_pct_list = s.current_eval_pct_list ∧
    (s.reset now).best_chkpnt_stats = s.best_chkpnt_stats ∧
    (s.reset now).eval_stats_chkpnt_name = s.eval_stats_chkpnt_name ∧
    (s.reset now).eval_stats_avg_comp_pct = s.eval_stats_avg_comp_pct ∧
    (s.reset now).is_eval = s.is_eval ∧
    (s.reset now).use_model_picker = s.use_model_picker ∧
    (s.reset now).episode_status = s.episode_status :=
  ⟨rfl, rfl, rfl, rfl, rfl, rfl, rfl, rfl, rfl, rfl, rfl, rfl, rfl⟩

/-- C9 (amended): `EvalMetrics.reset` adds the current per-window per-status
totals into the cumulative continuous-race counter, sets every per-window
counter to zero and resets the window start time, but it returns no value
(the method body has no return statement, so the call evaluates to `None`);
the snapshot view reads the cumulative sum from state instead of a return
value. -/
theorem reset_folds_and_zeroes_counters (s : EvalMetrics) (now : ℚ) :
    (s.reset now).2 = none ∧
    (s.reset now).1.reset_count_sum = s.reset_count_sum +
      (s.crashed_count + s.immobilized_count + s.off_track_count + s.reversed_count) ∧
    (s.reset now).1.crashed_count = 0 ∧
    (s.reset now).1.off_track_count = 0 ∧
    (s.reset now).1.immobilized_count = 0 ∧
    (s.reset now).1.reversed_count = 0 ∧
    (s.reset now).1.start_time = now :=
  ⟨rfl, rfl, rfl, rfl, rfl, rfl, rfl⟩

/-- C9 counterexample: on a tracker with two crashes and one off-track in the
current window (pre-reset sum 3), `EvalMetrics.reset` evaluates to `None`,
not to the pre-reset sum 3 that the claim says it returns. -/
theorem reset_returns_none_cex :
    (evalStateCex.reset 7).2 = none ∧
    evalStateCex.crashed_count + evalStateCex.immobilized_count +
      evalStateCex.off_track_count + evalStateCex.reversed_count = 3 ∧
    (evalStateCex.reset 7).2 ≠ some 3 :=
  ⟨rfl, by simp [evalStateCex, EvalMetrics.init], by simp [EvalMetrics.reset]⟩

/-- C5 (code bug): ingesting one training-phase step whose reward field is 1
leaves a running episode reward of 2 and raises nothing — the reward is added
once before the phase test and a second time inside the non-evaluation
branch, so each training step contributes its reward twice, not once as the
claim (and the intent recorded in the spec) states. -/
theorem training_step_reward_double_count :
    (trainingPhaseState.upload_step_metrics fullStepRec).1.episode_reward = 2 ∧
    (trainingPhaseState.upload_step_metrics fullStepRec).2.2 = none ∧
    (2 : ℚ) ≠ 1 := by
  refine ⟨?_, ?_, by norm_num⟩ <;>
    norm_num [TrainingMetrics.upload_step_metrics, trainingPhaseState, fullStepRec,
      TrainingMetrics.init, StepRec.validate_ok]

/-- C6 (code bug): `TrainingMetrics.append_episode_metrics` advances the
episode counter exactly on training-phase closes, as claimed, but the
separate trial counter `_eval_trials_` also advances exactly on
training-phase closes and stays unchanged on evaluation-phase closes — the
opposite of the claimed (and intended, per the counter name and its reset at
the EVAL to TRAIN transition) evaluation-trial counting. -/
theorem append_episode_trial_counter_behavior :
    (evalPhaseState.append_episode_metrics id 1).episode = 0 ∧
    (evalPhaseState.append_episode_metrics id 1).eval_trials = 0 ∧
    (trainingPhaseState.append_episode_metrics id 1).episode = 1 ∧
    (trainingPhaseState.append_episode_metrics id 1).eval_trials = 1 := by
  refine ⟨?_, ?_, ?_, ?_⟩ <;>
    simp [TrainingMetrics.append_episode_metrics, evalPhaseState, trainingPhaseState,
      TrainingMetrics.init]

theorem TrainingMetrics.inv_init (p : Bool) (t0 : ℚ) : (TrainingMetrics.init p t0).Inv :=
  ⟨rfl, le_refl 0⟩

theorem TrainingMetrics.upload_step_metrics_picker_frame (s : TrainingMetrics) (m : StepRec) :
    (s.upload_step_metrics m).1.eval_stats_avg_comp_pct = s.eval_stats_avg_comp_pct ∧
    (s.upload_step_metrics m).1.best_chkpnt_stats = s.best_chkpnt_stats := by
  unfold TrainingMetrics.upload_step_metrics
  constructor <;>
    repeat' first
      | rfl
      | split
      | dsimp only

theorem TrainingMetrics.update_inv_and_mono (s : TrainingMetrics) (data : RunPhase)
    (c1 c2 : String) (now : ℚ) (h : s.Inv) :
    (s.update data c1 c2 now).Inv ∧
    s.best_chkpnt_stats.avg_comp_pct ≤
      (s.update data c1 c2 now).best_chkpnt_stats.avg_comp_pct := by
  obtain ⟨h1, h2⟩ := h
  unfold TrainingMetrics.update TrainingMetrics.Inv
  dsimp only
  repeat' split
  all_goals
    first
      | exact ⟨⟨h1, h2⟩, le_refl _⟩
      | (refine ⟨⟨rfl, ?_⟩, ?_⟩
         all_goals simp_all
         all_goals linarith)

theorem TrainingMetrics.stepEvent_inv_and_mono (label : String → String)
    (s : TrainingMetrics) (e : TMEvent) (h : s.Inv) :
    (s.stepEvent label e).Inv ∧
    s.best_chkpnt_stats.avg_comp_pct ≤
      (s.stepEvent label e).best_chkpnt_stats.avg_comp_pct := by
  cases e with
  | reset now => exact ⟨h, le_refl _⟩
  | appendEpisode now => exact ⟨h, le_refl _⟩
  | uploadEpisode =>
    have hev : s.stepEvent label TMEvent.uploadEpisode = s.upload_episode_metrics := rfl
    rw [hev]
    unfold TrainingMetrics.upload_episode_metrics
    split
    · exact ⟨h, le_refl _⟩
    · exact ⟨h, le_refl _⟩
  | stepIngest m =>
    obtain ⟨hf1, hf2⟩ := s.upload_step_metrics_picker_frame m
    have hev : s.stepEvent label (TMEvent.stepIngest m) = (s.upload_step_metrics m).1 := rfl
    rw [hev]
    refine ⟨⟨?_, ?_⟩, ?_⟩
    · rw [hf1, hf2]; exact h.1
    · rw [hf2]; exact h.2
    · rw [hf2]
  | phaseUpdate data c1 c2 now => exact s.update_inv_and_mono data c1 c2 now h

theorem TrainingMetrics.run_inv_and_mono (label : String → String) (es : List TMEvent)
    (s : TrainingMetrics) (h : s.Inv) :
    (TrainingMetrics.run label es s).Inv ∧
    s.best_chkpnt_stats.avg_comp_pct ≤
      (TrainingMetrics.run label es s).best_chkpnt_stats.avg_comp_pct := by
  induction es generalizing s with
  | nil => exact ⟨h, le_refl _⟩
  | cons e es ih =>
    obtain ⟨he1, he2⟩ := s.stepEvent_inv_and_mono label e h
    obtain ⟨hr1, hr2⟩ := ih (s.stepEvent label e) he1
    exact ⟨hr1, le_trans he2 hr2⟩

theorem TrainingMetrics.inv_of_reachable (s : TrainingMetrics) (h : s.Reachable) : s.Inv := by
  obtain ⟨label, p, t0, es, rfl⟩ := h
  exact (TrainingMetrics.run_inv_and_mono label es _ (TrainingMetrics.inv_init p t0)).1

/-- C1: the tracked best mean completion percentage is non-decreasing over
the lifetime of the process: starting from a fresh instance, after any
further event — in particular after any EVAL to TRAIN transition processed by
`TrainingMetrics.update`, with or without model picking — the tracked best
mean is at least what it was before the event. -/
theorem best_avg_comp_pct_nondecreasing (label : String → String) (p : Bool) (t0 : ℚ)
    (es : List TMEvent) (e : TMEvent) :
    (TrainingMetrics.run label es (TrainingMetrics.init p t0)).best_chkpnt_stats.avg_comp_pct ≤
      (TrainingMetrics.run label (es ++ [e])
        (TrainingMetrics.init p t0)).best_chkpnt_stats.avg_comp_pct := by
  have hinv :=
    (TrainingMetrics.run_inv_and_mono label es _ (TrainingMetrics.inv_init p t0)).1
  have happ : TrainingMetrics.run label (es ++ [e]) (TrainingMetrics.init p t0) =
      (TrainingMetrics.run label es (TrainingMetrics.init p t0)).stepEvent label e := by
    unfold TrainingMetrics.run
    rw [List.foldl_append]
    rfl
  rw [happ]
  exact (TrainingMetrics.stepEvent_inv_and_mono label _ e hinv).2

/-- C2: at an EVAL to TRAIN transition with model picking enabled, on any
reachable state, the best record is replaced by the window checkpoint name
with the window mean and the current time exactly when the window mean is at
least the tracked best mean; consequently on an exact tie the best name
becomes the current window checkpoint name (ties favor the newest
checkpoint). -/
theorem best_replaced_iff_mean_ge (s : TrainingMetrics) (c1 c2 : String) (now : ℚ)
    (hr : s.Reachable) (hp : s.use_model_picker = true) :
    ((s.update RunPhase.TRAIN c1 c2 now).best_chkpnt_stats =
        { name := some (s.eval_stats_chkpnt_name.getD c1)
          avg_comp_pct := windowMean s.current_eval_pct_list
          time_stamp := now } ↔
      s.best_chkpnt_stats.avg_comp_pct ≤ windowMean s.current_eval_pct_list) ∧
    (windowMean s.current_eval_pct_list = s.best_chkpnt_stats.avg_comp_pct →
      (s.update RunPhase.TRAIN c1 c2 now).best_chkpnt_stats.name =
        some (s.eval_stats_chkpnt_name.getD c1)) := by
  obtain ⟨h1, h2⟩ := s.inv_of_reachable hr
  by_cases hc : s.eval_stats_avg_comp_pct ≤ windowMean s.current_eval_pct_list
  case pos =>
    have hbest : (s.update RunPhase.TRAIN c1 c2 now).best_chkpnt_stats =
        { name := some (s.eval_stats_chkpnt_name.getD c1)
          avg_comp_pct := windowMean s.current_eval_pct_list
          time_stamp := now } := by
      cases hn : s.eval_stats_chkpnt_name <;>
        simp [TrainingMetrics.update, hn, hp, hc,
          show (RunPhase.TRAIN != RunPhase.TRAIN) = false from rfl]
    rw [hbest]
    exact ⟨⟨fun _ => h1 ▸ hc, fun _ => rfl⟩, fun _ => rfl⟩
  case neg =>
    have hbest : (s.update RunPhase.TRAIN c1 c2 now).best_chkpnt_stats =
        s.best_chkpnt_stats := by
      cases hn : s.eval_stats_chkpnt_name <;>
        simp [TrainingMetrics.update, hn, hp, hc,
          show (RunPhase.TRAIN != RunPhase.TRAIN) = false from rfl]
    rw [not_le, h1] at hc
    rw [hbest]
    refine ⟨⟨fun heq => ?_, fun hle => absurd (lt_of_le_of_lt hle hc) (lt_irrefl _)⟩,
            fun hmean => absurd (hmean ▸ hc) (lt_irrefl _)⟩
    have havg := congrArg ChkpntStats.avg_comp_pct heq
    dsimp at havg
    rw [havg] at hc
    exact absurd hc (lt_irrefl _)

/-- Witness for `best_replaced_iff_mean_ge` on a fresh instance: an empty
window has mean -1, below the initial best mean 0, so the best record is not
replaced. -/
theorem best_replaced_iff_mean_ge_witness :
    (TrainingMetrics.init true 0).Reachable ∧
    (TrainingMetrics.init true 0).use_model_picker = true ∧
    ((((TrainingMetrics.init true 0).update RunPhase.TRAIN "ck1" "ck2" 1).best_chkpnt_stats =
        { name := some ((TrainingMetrics.init true 0).eval_stats_chkpnt_name.getD "ck1")
          avg_comp_pct := windowMean (TrainingMetrics.init true 0).current_eval_pct_list
          time_stamp := 1 } ↔
      (TrainingMetrics.init true 0).best_chkpnt_stats.avg_comp_pct ≤
        windowMean (TrainingMetrics.init true 0).current_eval_pct_list) ∧
    (windowMean (TrainingMetrics.init true 0).current_eval_pct_list =
        (TrainingMetrics.init true 0).best_chkpnt_stats.avg_comp_pct →
      ((TrainingMetrics.init true 0).update RunPhase.TRAIN "ck1" "ck2" 1).best_chkpnt_stats.name =
        some ((TrainingMetrics.init true 0).eval_stats_chkpnt_name.getD "ck1"))) :=
  ⟨⟨id, true, 0, [], rfl⟩, rfl,
    best_replaced_iff_mean_ge (TrainingMetrics.init true 0) "ck1" "ck2" 1
      ⟨id, true, 0, [], rfl⟩ rfl⟩

/-- C3: an EVAL to TRAIN transition whose window collected zero
completion-percentage samples computes the sentinel mean -1 and leaves the
tracked best record (its name and mean included) unchanged; no error is
raised — the embedded transition is a total function precisely because the
source guards `statistics.mean` with the `[-1]` fallback. -/
theorem empty_window_mean_sentinel_best_unchanged (s : TrainingMetrics) (c1 c2 : String)
    (now : ℚ) (hr : s.Reachable) (hp : s.use_model_picker = true)
    (he : s.current_eval_pct_list = []) :
    windowMean s.current_eval_pct_list = -1 ∧
    (s.update RunPhase.TRAIN c1 c2 now).best_chkpnt_stats = s.best_chkpnt_stats := by
  obtain ⟨h1, h2⟩ := s.inv_of_reachable hr
  have hmean : windowMean s.current_eval_pct_list = -1 := by
    rw [he]
    norm_num [windowMean, pyMean]
  refine ⟨hmean, ?_⟩
  have hc : ¬ s.eval_stats_avg_comp_pct ≤ windowMean s.current_eval_pct_list := by
    rw [hmean, h1]
    linarith
  cases hn : s.eval_stats_chkpnt_name <;>
    simp [TrainingMetrics.update, hn, hp, hc,
      show (RunPhase.TRAIN != RunPhase.TRAIN) = false from rfl]

/-- Witness for `empty_window_mean_sentinel_best_unchanged` on a fresh
instance, whose sample window is empty. -/
theorem empty_window_mean_sentinel_best_unchanged_witness :
    (TrainingMetrics.init true 0).Reachable ∧
    (TrainingMetrics.init true 0).use_model_picker = true ∧
    (TrainingMetrics.init true 0).current_eval_pct_list = [] ∧
    (windowMean (TrainingMetrics.init true 0).current_eval_pct_list = -1 ∧
      ((TrainingMetrics.init true 0).update RunPhase.TRAIN "ck1" "ck2" 1).best_chkpnt_stats =
        (TrainingMetrics.init true 0).best_chkpnt_stats) :=
  ⟨⟨id, true, 0, [], rfl⟩, rfl, rfl,
    empty_window_mean_sentinel_best_unchanged (TrainingMetrics.init true 0) "ck1" "ck2" 1
      ⟨id, true, 0, [], rfl⟩ rfl rfl⟩

theorem tm_upload_step_missing_errors (s : TrainingMetrics) (m : StepRec)
    (hs : s.is_eval = false)
    (hm : m.x = none ∨ m.y = none ∨ m.steer = none ∨ m.prog = none ∨
      m.episode_status = none ∨ m.reward = none ∨ m.done = none) :
    ((s.upload_step_metrics m).2.2).isSome := by
  rcases m with ⟨mx, my, ms, mp, mes, mr, me, md⟩
  cases mp <;> cases mes <;> cases mr <;>
    simp_all [TrainingMetrics.upload_step_metrics, StepRec.validate_ok]
  rcases hm with h | h | h | h <;> simp_all

theorem em_upload_step_missing_errors (t : EvalMetrics) (sqrt : ℚ → ℚ)
    (now : ℚ) (m : StepRec)
    (hm : m.x = none ∨ m.y = none ∨ m.steer = none ∨ m.prog = none ∨
      m.episode_status = none ∨ m.reward = none ∨ m.done = none) :
    ((t.upload_step_metrics sqrt now m).2.2).isSome := by
  rcases m with ⟨mx, my, ms, mp, mes, mr, me, md⟩
  cases mp <;> cases mes <;>
    simp_all [EvalMetrics.upload_step_metrics, StepRec.validate_ok]
  rcases hm with h | h | h | h | h <;> simp_all

/-- C4 counterexample: ingesting a training-phase step record that lacks the
`x` field raises the malformed-record error, yet the aggregation state is not
what it was before the call: the latest progress (like the latest status and
the running reward) was already overwritten before validation ran. -/
theorem malformed_step_mutates_state_cex :
    ((trainingPhaseState.upload_step_metrics missingXStep).2.2 =
      some MetricsErr.malformedRecord) ∧
    (trainingPhaseState.upload_step_metrics missingXStep).1.progress ≠
      trainingPhaseState.progress := by
  constructor <;>
    norm_num [TrainingMetrics.upload_step_metrics, trainingPhaseState, missingXStep,
      fullStepRec, TrainingMetrics.init, StepRec.validate_ok]

theorem em_recordResetStatus_agent_xy (u : EvalMetrics) (st : String) :
    (u.recordResetStatus st).agent_xy = u.agent_xy := by
  unfold EvalMetrics.recordResetStatus
  repeat' first
    | rfl
    | split

/-- C4 (amended): a step record missing a required field other than the
episode index makes ingest raise an error — the malformed-record error from
validation, or a key error for the progress, status and reward fields read
before validation — in training phase for the training-side aggregator and
always for the evaluation-side aggregator; a missing episode index is never
detected, because both aggregators overwrite the record's episode field
before validation runs, so a record missing only the episode index ingests
without error; and validation runs only after the progress, status, reward
and reset-count updates, so those may already be applied when the error
propagates (and the training-side aggregator in evaluation phase does not
validate at all). -/
theorem missing_field_raises_after_partial_update (s : TrainingMetrics) (t t2 : EvalMetrics)
    (sqrt : ℚ → ℚ) (now : ℚ) (m m2 : StepRec) (x2 y2 st2 p2 r2 : ℚ) (es2 : String)
    (d2 : Bool) (hs : s.is_eval = false)
    (hm : m.x = none ∨ m.y = none ∨ m.steer = none ∨ m.prog = none ∨
      m.episode_status = none ∨ m.reward = none ∨ m.done = none)
    (hx : m2.x = some x2) (hy : m2.y = some y2) (hst : m2.steer = some st2)
    (hp : m2.prog = some p2) (hes : m2.episode_status = some es2)
    (hr : m2.reward = some r2) (hd : m2.done = some d2) :
    ((s.upload_step_metrics m).2.2).isSome ∧
    ((t.upload_step_metrics sqrt now m).2.2).isSome ∧
    ((s.upload_step_metrics m2).2.2 = none) ∧
    (t2.agent_xy = none → (t2.upload_step_metrics sqrt now m2).2.2 = none) := by
  refine ⟨tm_upload_step_missing_errors s m hs hm,
          em_upload_step_missing_errors t sqrt now m hm, ?_, ?_⟩
  · rcases m2 with ⟨mx, my, ms, mp, mes, mr, me, md⟩
    cases hx; cases hy; cases hst; cases hp; cases hes; cases hr; cases hd
    simp [TrainingMetrics.upload_step_metrics, StepRec.validate_ok, hs]
  · intro hxy
    rcases m2 with ⟨mx, my, ms, mp, mes, mr, me, md⟩
    cases hx; cases hy; cases hst; cases hp; cases hes; cases hr; cases hd
    simp [EvalMetrics.upload_step_metrics, StepRec.validate_ok,
      EvalMetrics.update_mp4_video_metrics, EvalMetrics.fillVideoMetrics,
      em_recordResetStatus_agent_xy, hxy]

/-- Witness for `missing_field_raises_after_partial_update` at a record
missing its `x` field and a record missing only its `episode` field. -/
theorem missing_field_raises_after_partial_update_witness :
    trainingPhaseState.is_eval = false ∧
    missingXStep.x = none ∧
    missingEpisodeStep.episode = none ∧
    (((trainingPhaseState.upload_step_metrics missingXStep).2.2).isSome ∧
      (((EvalMetrics.init false 0).upload_step_metrics id 0 missingXStep).2.2).isSome ∧
      ((trainingPhaseState.upload_step_metrics missingEpisodeStep).2.2 = none) ∧
      ((EvalMetrics.init false 0).agent_xy = none →
        ((EvalMetrics.init false 0).upload_step_metrics id 0 missingEpisodeStep).2.2 =
          none)) :=
  ⟨rfl, rfl, rfl,
    missing_field_raises_after_partial_update trainingPhaseState (EvalMetrics.init false 0)
      (EvalMetrics.init false 0) id 0 missingXStep missingEpisodeStep 0 0 0 50 1 "prepare"
      false rfl (Or.inl rfl) rfl rfl rfl rfl rfl rfl rfl⟩

/-- C7 counterexample: a snapshot update whose elapsed wall-clock time since
the previous update is zero raises `ZeroDivisionError` instead of yielding a
speed of 0 — the claimed guard does not exist in the code. -/
theorem zero_elapsed_time_division_error_cex :
    (evalStateWithPrev.update_mp4_video_metrics id 5 fullStepRec).2 =
      some MetricsErr.zeroDivisionError := by
  norm_num [EvalMetrics.update_mp4_video_metrics, evalStateWithPrev, fullStepRec,
    EvalMetrics.init]

/-- C7 (amended): on the first-ever update of a run (no previous position)
the computed speed is 0 regardless of position and, for a complete record, no
error is raised; but on a later update whose elapsed time since the previous
update is zero the code raises `ZeroDivisionError` (leaving the state
untouched), and a nonzero — including negative — elapsed time divides the
distance by that delta rather than falling back to 0. -/
theorem speed_first_update_zero_and_zero_dt_errors (s : EvalMetrics) (sqrt : ℚ → ℚ)
    (now : ℚ) (m : StepRec) (ax ay sv : ℚ) (dv : Bool)
    (hx : m.x = some ax) (hy : m.y = some ay) (hst : m.steer = some sv)
    (hd : m.done = some dv) :
    (s.agent_xy = none →
      (s.update_mp4_video_metrics sqrt now m).2 = none ∧
      (s.update_mp4_video_metrics sqrt now m).1.video_metrics.throttle = 0) ∧
    (∀ px py pt, s.agent_xy = some (px, py) → s.prev_step_time = some pt → now - pt = 0 →
      (s.update_mp4_video_metrics sqrt now m).2 = some MetricsErr.zeroDivisionError ∧
      (s.update_mp4_video_metrics sqrt now m).1 = s) ∧
    (∀ px py pt, s.agent_xy = some (px, py) → s.prev_step_time = some pt → now - pt ≠ 0 →
      (s.update_mp4_video_metrics sqrt now m).1.video_metrics.throttle =
        sqrt ((px - ax) ^ 2 + (py - ay) ^ 2) / (now - pt)) := by
  refine ⟨fun hxy => ?_, fun px py pt hxy hpt hdt => ?_, fun px py pt hxy hpt hdt => ?_⟩
  · simp [EvalMetrics.update_mp4_video_metrics, EvalMetrics.fillVideoMetrics, hx, hy, hst,
      hd, hxy]
  · simp [EvalMetrics.update_mp4_video_metrics, hx, hy, hxy, hpt, hdt]
  · simp [EvalMetrics.update_mp4_video_metrics, EvalMetrics.fillVideoMetrics, hx, hy, hst,
      hd, hxy, hpt, hdt]

/-- Witness for `speed_first_update_zero_and_zero_dt_errors` on a fresh
instance and a complete step record. -/
theorem speed_first_update_zero_and_zero_dt_errors_witness :
    fullStepRec.x = some 0 ∧ fullStepRec.y = some 0 ∧ fullStepRec.steer = some 0 ∧
    fullStepRec.done = some false ∧
    (((EvalMetrics.init false 0).agent_xy = none →
      ((EvalMetrics.init false 0).update_mp4_video_metrics id 1 fullStepRec).2 = none ∧
      ((EvalMetrics.init false 0).update_mp4_video_metrics id 1
        fullStepRec).1.video_metrics.throttle = 0) ∧
    (∀ px py pt, (EvalMetrics.init false 0).agent_xy = some (px, py) →
      (EvalMetrics.init false 0).prev_step_time = some pt → 1 - pt = 0 →
      ((EvalMetrics.init false 0).update_mp4_video_metrics id 1 fullStepRec).2 =
        some MetricsErr.zeroDivisionError ∧
      ((EvalMetrics.init false 0).update_mp4_video_metrics id 1 fullStepRec).1 =
        EvalMetrics.init false 0) ∧
    (∀ px py pt, (EvalMetrics.init false 0).agent_xy = some (px, py) →
      (EvalMetrics.init false 0).prev_step_time = some pt → 1 - pt ≠ 0 →
      ((EvalMetrics.init false 0).update_mp4_video_metrics id 1
        fullStepRec).1.video_metrics.throttle =
        id ((px - 0) ^ 2 + (py - 0) ^ 2) / (1 - pt))) :=
  ⟨rfl, rfl, rfl, rfl,
    speed_first_update_zero_and_zero_dt_errors (EvalMetrics.init false 0) id 1 fullStepRec
      0 0 0 false rfl rfl rfl rfl⟩

theorem tm_upload_step_progress (s : TrainingMetrics) (m : StepRec) (p : ℚ)
    (hp : m.prog = some p) :
    (s.upload_step_metrics m).1.progress = p ∧
    (s.upload_step_metrics m).1.metrics = s.metrics := by
  rcases m with ⟨mx, my, ms, mp, mes, mr, me, md⟩
  cases hp
  constructor <;>
    (unfold TrainingMetrics.upload_step_metrics
     repeat' first
       | rfl
       | split
       | dsimp only
       | simp_all)

set_option maxHeartbeats 1000000 in
theorem em_upload_step_progress (t : EvalMetrics) (sqrt : ℚ → ℚ) (now : ℚ)
    (m : StepRec) (p : ℚ) (hp : m.prog = some p) :
    (t.upload_step_metrics sqrt now m).1.progress = p ∧
    (t.upload_step_metrics sqrt now m).1.metrics = t.metrics := by
  rcases m with ⟨mx, my, ms, mp, mes, mr, me, md⟩
  cases hp
  constructor <;>
    (unfold EvalMetrics.upload_step_metrics EvalMetrics.update_mp4_video_metrics
       EvalMetrics.fillVideoMetrics EvalMetrics.recordResetStatus
     repeat' first
       | rfl
       | split
       | dsimp only)

theorem tm_append_completion (u : TrainingMetrics) (label : String → String)
    (now : ℚ) :
    (u.append_episode_metrics label now).metrics.map (fun em => em.completion_percentage) =
      u.metrics.map (fun em => em.completion_percentage) ++ [pyInt u.progress] := by
  simp [TrainingMetrics.append_episode_metrics]

theorem em_append_completion (u : EvalMetrics) (label : String → String)
    (now : ℚ) :
    (u.append_episode_metrics label now).metrics.map (fun em => em.completion_percentage) =
      u.metrics.map (fun em => em.completion_percentage) ++ [pyInt u.progress] := by
  simp [EvalMetrics.append_episode_metrics]

/-- C8 counterexample: after ingesting a step whose progress is 2.7, the
closed episode record stores completion percentage 2 — `int()` truncation —
whereas a rounded integer would be 3. -/
theorem completion_percentage_truncates_cex :
    (((EvalMetrics.init false 0).upload_step_metrics id 1
        progress27Step).1.append_episode_metrics id 1).metrics.map
      (fun em => em.completion_percentage) = [2] ∧
    round ((27 : ℚ) / 10) = 3 ∧ (2 : ℤ) ≠ 3 := by
  refine ⟨?_, by norm_num [round_eq], by norm_num⟩
  simp [EvalMetrics.upload_step_metrics, EvalMetrics.append_episode_metrics,
    EvalMetrics.init, progress27Step, fullStepRec, StepRec.validate_ok,
    EvalMetrics.update_mp4_video_metrics, EvalMetrics.fillVideoMetrics,
    EvalMetrics.recordResetStatus, EpisodeStatus.CRASHED, EpisodeStatus.OFF_TRACK,
    EpisodeStatus.IMMOBILIZED, EpisodeStatus.REVERSED]
  norm_num [pyInt]
  decide

/-- C8 (amended): for both aggregators, closing an episode right after an
ingest whose record carries progress `p` appends an episode record whose
completion percentage is `p` truncated toward zero by `int()` — the progress
of the last ingested step, stored truncated rather than rounded. -/
theorem completion_percentage_eq_last_progress_truncated (s : TrainingMetrics)
    (t : EvalMetrics) (sqrt : ℚ → ℚ) (label : String → String) (now now2 : ℚ)
    (m : StepRec) (p : ℚ) (hp : m.prog = some p) :
    (((t.upload_step_metrics sqrt now m).1.append_episode_metrics label now2).metrics.map
        (fun em => em.completion_percentage) =
      t.metrics.map (fun em => em.completion_percentage) ++ [pyInt p]) ∧
    (((s.upload_step_metrics m).1.append_episode_metrics label now2).metrics.map
        (fun em => em.completion_percentage) =
      s.metrics.map (fun em => em.completion_percentage) ++ [pyInt p]) := by
  obtain ⟨ht1, ht2⟩ := em_upload_step_progress t sqrt now m p hp
  obtain ⟨hs1, hs2⟩ := tm_upload_step_progress s m p hp
  constructor
  · rw [em_append_completion, ht1, ht2]
  · rw [tm_append_completion, hs1, hs2]

/-- Witness for `completion_percentage_eq_last_progress_truncated` at a
record with progress 2.7 ingested into fresh aggregators. -/
theorem completion_percentage_eq_last_progress_truncated_witness :
    progress27Step.prog = some (27 / 10) ∧
    (((((EvalMetrics.init false 0).upload_step_metrics id 1
          progress27Step).1.append_episode_metrics id 2).metrics.map
        (fun em => em.completion_percentage) =
      (EvalMetrics.init false 0).metrics.map (fun em => em.completion_percentage) ++
        [pyInt (27 / 10)]) ∧
    ((((TrainingMetrics.init true 0).upload_step_metrics
          progress27Step).1.append_episode_metrics id 2).metrics.map
        (fun em => em.completion_percentage) =
      (TrainingMetrics.init true 0).metrics.map (fun em => em.completion_percentage) ++
        [pyInt (27 / 10)])) :=
  ⟨rfl,
    completion_percentage_eq_last_progress_truncated (TrainingMetrics.init true 0)
      (EvalMetrics.init false 0) id id 1 2 progress27Step (27 / 10) rfl⟩
